import Mathlib

/-!
Shallow embedding of the nba-totals-model prediction-and-backtest engine.

Numeric values are modelled as exact rationals (`ℚ`); Python's `round(x, n)`
(banker's rounding, round-half-to-even) is modelled by `pyRound`.  Dates are
modelled as day numbers: `GameRecord.date` is an integer day ordinal (the game
log carries date-only ISO strings), while `RecentGame.date` is a rational
number of days so that a time-of-day component can be represented when
reasoning about `is_back_to_back` (Python `timedelta.days` is the floor of the
signed duration in days).  Data fetched from the network by the source
(pace map, team records, injury lists) is passed as explicit arguments, since
those fetches are external collaborators of the core.  Python dicts/DataFrame
indexes are modelled as association lists with unique keys, looked up by
`lookupA`.
-/

namespace NbaTotals

/-- Python `round` on rationals: round half to even (banker's rounding). -/
def roundHalfEven (x : ℚ) : ℤ :=
  if x - Int.floor x = 1 / 2 then
    (if Int.floor x % 2 = 0 then Int.floor x else Int.floor x + 1)
  else
    round x

/-- `round(x, ndigits)` from Python, on exact rationals. -/
def pyRound (ndigits : ℕ) (x : ℚ) : ℚ :=
  (roundHalfEven (x * 10 ^ ndigits) : ℚ) / 10 ^ ndigits

/-- Association-list lookup, modelling Python `dict[k]` / `df.loc[k]`. -/
def lookupA {β : Type} (m : List (String × β)) (k : String) : Option β :=
  (m.find? (fun p => p.1 == k)).map (fun p => p.2)

/-- One row of the historical game log (src/backtest.py `get_historical_games`):
date (day ordinal), home/away team, final scores, realized total and the
sportsbook line. -/
structure GameRecord where
  date : ℤ
  home : String
  away : String
  home_pts : ℤ
  away_pts : ℤ
  total_pts : ℤ
  sportsbook_total : ℚ
deriving Repr, DecidableEq

/-- One row of the team-efficiency table produced by
`calculate_team_totals` (src/process.py): the four weighted per-role means.
After the source's outer join + `fillna(0)` every team present in the table
carries all four fields. -/
structure TeamRow where
  avg_scored_home : ℚ
  avg_allowed_home : ℚ
  avg_scored_away : ℚ
  avg_allowed_away : ℚ
deriving Repr, DecidableEq

/-- The per-row weight assigned in src/process.py lines 16-24: rows at
positions `>= len(df) - len(df) // 3` get weight 3.0 when recency weighting is
on and the input has more than 10 rows, all rows get weight 1.0 otherwise. -/
def gameWeight (recency_weight : Bool) (n i : ℕ) : ℚ :=
  if recency_weight = true ∧ 10 < n ∧ n - n / 3 ≤ i then 3 else 1

/-- The game log paired with the `weight` column of src/process.py. -/
def weightedGames (df : List GameRecord) (recency_weight : Bool) :
    List (GameRecord × ℚ) :=
  df.enum.map (fun p => (p.2, gameWeight recency_weight df.length p.1))

/-- Weighted mean `(x * w).sum() / w.sum()` over (value, weight) pairs. -/
def wavg (vals : List (ℚ × ℚ)) : ℚ :=
  (vals.map (fun p => p.1 * p.2)).sum / (vals.map (fun p => p.2)).sum

/-- src/process.py `calculate_team_totals`: group by home role and by away
role, take weighted means, outer-join the two group results and fill missing
role statistics with 0 (`join(..., how="outer").fillna(0)`).  The output maps
every team occurring in the log (in either role) to a full `TeamRow`. -/
def calculate_team_totals (df : List GameRecord) (recency_weight : Bool) :
    List (String × TeamRow) :=
  let wg := weightedGames df recency_weight
  let teams := (df.map (fun g => g.home) ++ df.map (fun g => g.away)).dedup
  teams.map (fun t =>
    let hg := wg.filter (fun p => p.1.home == t)
    let ag := wg.filter (fun p => p.1.away == t)
    (t,
      { avg_scored_home :=
          if hg.isEmpty then 0
          else wavg (hg.map (fun p => ((p.1.home_pts : ℚ), p.2)))
        avg_allowed_home :=
          if hg.isEmpty then 0
          else wavg (hg.map (fun p => ((p.1.away_pts : ℚ), p.2)))
        avg_scored_away :=
          if ag.isEmpty then 0
          else wavg (ag.map (fun p => ((p.1.away_pts : ℚ), p.2)))
        avg_allowed_away :=
          if ag.isEmpty then 0
          else wavg (ag.map (fun p => ((p.1.home_pts : ℚ), p.2))) }))

/-- The game log is sorted ascending by date. -/
def sortedByDate : List GameRecord → Bool
  | [] => true
  | [_] => true
  | a :: b :: rest => decide (a.date ≤ b.date) && sortedByDate (b :: rest)

/-- src/edge.py `calculate_edge`: `round(predicted_total - sportsbook_total, 2)`. -/
def calculate_edge (predicted_total sportsbook_total : ℚ) : ℚ :=
  pyRound 2 (predicted_total - sportsbook_total)

/-- src/line_movement.py `should_filter_based_on_movement`: returns `true`
("place the bet") unless the model diverges from the line by more than 12
points, in which case it returns `false` ("skip"). The bet-direction argument
is accepted but unused, as in the source. -/
def should_filter_based_on_movement (predicted_total sportsbook_total : ℚ)
    (predicted_bet : String) : Bool :=
  let discrepancy := |predicted_total - sportsbook_total|
  if discrepancy > 12.0 then false else true

/-- The fixed superstar table of src/injury.py `calculate_injury_impact`,
in source (insertion) order. -/
def SUPERSTARS : List (String × ℚ) :=
  [("Luka Doncic", 10), ("LeBron James", 10), ("Giannis Antetokounmpo", 10),
   ("Kevin Durant", 9), ("Jayson Tatum", 8), ("Stephen Curry", 9),
   ("Shai Gilgeous-Alexander", 8), ("Joel Embiid", 10), ("Damian Lillard", 8),
   ("Kawhi Leonard", 8), ("Jimmy Butler", 7), ("Anthony Davis", 9)]

/-- Python substring containment `needle in hay` (both already lowercased by
the caller, as in the source). -/
def containsStr (hay needle : String) : Bool :=
  (hay.splitOn needle).length ≥ 2

/-- `entry.split('(')[0].strip()` from src/injury.py line 163. -/
def entryName (entry : String) : String :=
  ((entry.splitOn "(").headD "").trim

/-- The first superstar-table entry whose lowercased name occurs in the
lowercased player name of `entry`, as in the source's inner loop with `break`;
`none` when the entry is a role player. -/
def matchStar (entry : String) : Option ℚ :=
  SUPERSTARS.findSome? (fun p =>
    if containsStr (entryName entry).toLower p.1.toLower then some p.2 else none)

/-- One iteration of the source's accumulation loop over the injured list:
the accumulator is `(superstar_total, superstar_count, role_count)`. -/
def injuryStep (acc : ℚ × ℕ × ℕ) (entry : String) : ℚ × ℕ × ℕ :=
  match matchStar entry with
  | some imp => (acc.1 + imp, acc.2.1 + 1, acc.2.2)
  | none => (acc.1, acc.2.1, acc.2.2 + 1)

/-- The source's accumulation loop over the injured list:
`(superstar_total, superstar_count, role_count)`. -/
def injuryCounts (injured : List String) : ℚ × ℕ × ℕ :=
  injured.foldl injuryStep (0, 0, 0)

/-- The injured list for a team: `injuries_dict.get(team_name, [])`. -/
def injuredOf (injuries_dict : List (String × List String)) (team_name : String) :
    List String :=
  (lookupA injuries_dict team_name).getD []

/-- src/injury.py `calculate_injury_impact`: superstar impacts plus 1.5 per
role player, damped by 0.9 when at least two superstars are out, capped at 15. -/
def calculate_injury_impact (team_name : String)
    (injuries_dict : List (String × List String)) : ℚ :=
  let injured := injuredOf injuries_dict team_name
  if injured.isEmpty then 0
  else
    let c := injuryCounts injured
    let role_impact : ℚ := (c.2.2 : ℚ) * 1.5
    let total := c.1 + role_impact
    let total := if c.2.1 ≥ 2 then total * 0.9 else total
    min total 15

/-- src/injury.py `adjust_prediction_for_injuries` (with the injuries map
passed explicitly, as the `injuries_map` parameter of the source; the
`None` case fetches from the network and is external to the core). -/
def adjust_prediction_for_injuries (away_team home_team : String)
    (injuries_map : List (String × List String)) : ℚ :=
  let home_impact := calculate_injury_impact home_team injuries_map
  let away_impact := calculate_injury_impact away_team injuries_map
  let adjustment : ℚ := -(home_impact + away_impact) / 2
  adjustment

/-- src/advanced_stats.py `get_pace_adjusted_total` with an explicit pace map
(the source's `pace_map` parameter; `None` triggers a network fetch, external
to the core).  Note the base total argument is unused in the source as well. -/
def get_pace_adjusted_total (base_total : ℚ) (away_team home_team : String)
    (pace_map : List (String × ℚ)) : ℚ :=
  let home_pace := (lookupA pace_map home_team).getD 100.0
  let away_pace := (lookupA pace_map away_team).getD 100.0
  let avg_pace := (home_pace + away_pace) / 2
  (avg_pace - 100) * 0.4

/-- A team's win/loss record, as returned by src/streaks.py `get_team_records`. -/
structure TeamRecordWL where
  wins : ℚ
  losses : ℚ
deriving Repr, DecidableEq

/-- The per-team branch of src/streaks.py `calculate_streak_adjustment`. -/
def streakTeamAdj (records : List (String × TeamRecordWL)) (team : String) : ℚ :=
  match lookupA records team with
  | none => 0
  | some r =>
    let total_games := r.wins + r.losses
    if total_games > 0 then
      let win_pct := r.wins / total_games
      if win_pct > 0.55 then 0.75
      else if win_pct < 0.45 then -0.75
      else 0
    else 0

/-- src/streaks.py `calculate_streak_adjustment` with the records map passed
explicitly (the source fetches it from ESPN; fetch failure yields the empty
map, making the adjustment 0). -/
def calculate_streak_adjustment (home_team away_team : String)
    (records : List (String × TeamRecordWL)) : ℚ :=
  streakTeamAdj records home_team + streakTeamAdj records away_team

/-- One row of the `recent_games` table consumed by src/model.py: a datetime
(rational day number, fractional part = time of day) and optional home/away
team fields (`game.get('home')` / `game.get('away')`). -/
structure RecentGame where
  date : ℚ
  home : Option String
  away : Option String
deriving Repr, DecidableEq

/-- src/model.py `is_back_to_back`.  Python's `(game_dt - current).days` is the
floor of the signed duration in days, `yesterday.date()` is
`⌊game_date - 1⌋`, and `game_dt.date()` is `⌊g.date⌋`; the team must appear in
the row's home or away field. -/
def is_back_to_back (game_date : ℚ) (recent_games : List RecentGame)
    (team_name : String) : Bool :=
  recent_games.any (fun g =>
    decide ((Int.floor (g.date - game_date)).natAbs < 1) &&
    (Int.floor g.date == Int.floor (game_date - 1)) &&
    (g.home == some team_name || g.away == some team_name))

/-- `value or league_average`: Python `or` replaces a falsy (zero) statistic
with the league-average constant.  (The `.get(field, default)` part of the
source line never fires here because `calculate_team_totals` always emits all
four fields.) -/
def fieldOr (x league_avg : ℚ) : ℚ :=
  if x = 0 then league_avg else x

/-- The single error kind of src/model.py `predict_total`: the `KeyError` on
`model_data.loc[...]`, re-raised as `ValueError("Team not found...")`. -/
inductive PredictError where
  | teamNotFound : PredictError
deriving Repr, DecidableEq

/-- src/model.py `predict_total`.  The pace map and win/loss records consumed
by the internal `get_pace_adjusted_total` / `calculate_streak_adjustment`
calls are network-fetched in the source and appear here as explicit trailing
arguments. -/
def predict_total (model_data : List (String × TeamRow))
    (away_team home_team : String)
    (home_court_bonuses : Option (List (String × ℚ)))
    (total_multiplier market_calibration : ℚ)
    (recent_games : Option (List RecentGame))
    (pace_map : List (String × ℚ))
    (records : List (String × TeamRecordWL)) : Except PredictError ℚ :=
  match lookupA model_data home_team, lookupA model_data away_team with
  | some home, some away =>
    let league_avg_scored : ℚ := 110
    let league_avg_allowed : ℚ := 110
    let home_scored := fieldOr home.avg_scored_home league_avg_scored
    let home_allowed := fieldOr home.avg_allowed_home league_avg_allowed
    let away_scored := fieldOr away.avg_scored_away league_avg_scored
    let away_allowed := fieldOr away.avg_allowed_away league_avg_allowed
    let pred := (home_scored + away_scored + home_allowed + away_allowed) / 2
    let hc_bonus : ℚ :=
      match home_court_bonuses with
      | some bonuses =>
        match lookupA bonuses home_team with
        | some b => b
        | none => 3.5
      | none => 3.5
    let pred := pred + hc_bonus
    let pred := pred * total_multiplier
    let pred := pred + market_calibration
    let pred :=
      match recent_games with
      | some (g0 :: rest) =>
        let game_date := g0.date
        let b2b_adjustment : ℚ :=
          (if is_back_to_back game_date (g0 :: rest) home_team then -1.0 else 0) +
          (if is_back_to_back game_date (g0 :: rest) away_team then -1.0 else 0)
        pred + b2b_adjustment
      | some [] => pred
      | none => pred
    let pace_adj := get_pace_adjusted_total pred away_team home_team pace_map
    let pred := pred + pace_adj
    let streak_adj := calculate_streak_adjustment home_team away_team records
    let pred := pred + streak_adj
    Except.ok (pyRound 1 pred)
  | _, _ => Except.error PredictError.teamNotFound

/-- src/backtest.py line 108: the training data for index `idx` is the strict
replay prefix `all_games.iloc[:idx]`. -/
def backtestTrainingData (all_games : List GameRecord) (idx : ℕ) :
    List GameRecord :=
  all_games.take idx

/-- src/backtest.py line 115: the model is built from the training prefix with
`calculate_team_totals`'s default `recency_weight=True`. -/
def backtestModelData (all_games : List GameRecord) (idx : ℕ) :
    List (String × TeamRow) :=
  calculate_team_totals (backtestTrainingData all_games idx) true

/-- One row appended to `results` by src/backtest.py lines 161-172. -/
structure BacktestRow where
  date : ℤ
  home : String
  away : String
  actual_total : ℤ
  sportsbook_total : ℚ
  predicted_total : ℚ
  edge : ℚ
  bet : String
  result : String
  training_games : ℕ
deriving Repr, DecidableEq

/-- src/backtest.py lines 139-172: per-index edge computation, outlier filter,
outcome classification and result-row construction, given the fully adjusted
prediction.  `should_bet` is computed exactly as in the source (line 141) and,
exactly as in the source, never consulted afterwards. -/
def backtestRow (current_game : GameRecord) (predicted : ℚ)
    (training_games : ℕ) : BacktestRow :=
  let edge := calculate_edge predicted current_game.sportsbook_total
  let _should_bet := should_filter_based_on_movement predicted
    current_game.sportsbook_total (if edge > 0 then "OVER" else "UNDER")
  let actual_total := current_game.total_pts
  let predicted_over : Bool := decide (predicted > current_game.sportsbook_total)
  let actual_over : Bool :=
    decide ((actual_total : ℚ) > current_game.sportsbook_total)
  let result :=
    if edge ≠ 0 then
      if predicted_over && actual_over then "WIN"
      else if !predicted_over && !actual_over then "WIN"
      else "LOSS"
    else "PUSH"
  { date := current_game.date
    home := current_game.home
    away := current_game.away
    actual_total := actual_total
    sportsbook_total := current_game.sportsbook_total
    predicted_total := predicted
    edge := edge
    bet := if predicted_over then "OVER" else "UNDER"
    result := result
    training_games := training_games }

/-! ### Claim-side (specification) definitions

These render the spec's own wording of the quantities being checked; the
theorems below compare them against the source-side definitions above. -/

/-- The weight the spec assigns to input position `i` of an `n`-game log:
3.0 for positions `>= max(0, n - n//3)` when recency weighting is enabled and
`n > 10`, and 1.0 otherwise. -/
def claimWeight (recency : Bool) (n i : ℕ) : ℚ :=
  if recency = true ∧ 10 < n ∧ max 0 (n - n / 3) ≤ i then 3 else 1

/-- The games of the log in which `t` is the home team, paired with their
input positions. -/
def homeGamesIdx (df : List GameRecord) (t : String) : List (ℕ × GameRecord) :=
  df.enum.filter (fun p => p.2.home == t)

/-- The games of the log in which `t` is the away team, paired with their
input positions. -/
def awayGamesIdx (df : List GameRecord) (t : String) : List (ℕ × GameRecord) :=
  df.enum.filter (fun p => p.2.away == t)

/-- Weighted mean of position-indexed values under a position-weight
function. -/
def weightedMeanBy (items : List (ℕ × ℚ)) (w : ℕ → ℚ) : ℚ :=
  (items.map (fun p => p.2 * w p.1)).sum / (items.map (fun p => w p.1)).sum

/-- Spec-side: the total impact of the named superstars on the injured list
(0 for each role player). -/
def superstarSum (injured : List String) : ℚ :=
  (injured.map (fun e => (matchStar e).getD 0)).sum

/-- Spec-side: how many injured players match the superstar table. -/
def superstarCount (injured : List String) : ℕ :=
  (injured.filter (fun e => (matchStar e).isSome)).length

/-- Spec-side: how many injured players are role players (no superstar
match). -/
def rolePlayerCount (injured : List String) : ℕ :=
  (injured.filter (fun e => (matchStar e).isNone)).length

/-- Spec-side: the effective home-court bonus — the supplied per-team override
when one exists, the 3.5 constant otherwise. -/
def effectiveBonus (home_court_bonuses : Option (List (String × ℚ)))
    (home_team : String) : ℚ :=
  match home_court_bonuses with
  | some bonuses =>
    match lookupA bonuses home_team with
    | some b => b
    | none => 3.5
  | none => 3.5

/-! ### Concrete inputs used by the counterexamples and witnesses -/

/-- The efficiency table of the spec's worked scenario:
`{A: scored_home=110, allowed_home=105, scored_away=100, allowed_away=112}`,
`{B: scored_home=108, allowed_home=110, scored_away=104, allowed_away=107}`. -/
def scenarioStats : List (String × TeamRow) :=
  [("A", ⟨110, 105, 100, 112⟩), ("B", ⟨108, 110, 104, 107⟩)]

/-- A two-game log that is NOT sorted ascending by date. -/
def unsortedLog : List GameRecord :=
  [⟨5, "X", "Y", 100, 90, 190, 200⟩, ⟨3, "Y", "X", 80, 70, 150, 200⟩]

/-- A two-game log sorted ascending by date. -/
def twoGameLog : List GameRecord :=
  [⟨1, "X", "Y", 100, 90, 190, 200⟩, ⟨2, "Y", "X", 80, 70, 150, 210⟩]

/-- A single game: `X` plays only at home, `Y` only away. -/
def oneGameLog : List GameRecord :=
  [⟨0, "X", "Y", 100, 90, 190, 200⟩]

/-- A game whose realized total (230) and line (220) sit 20 points below a
240-point model prediction, so the outlier filter fires. -/
def filterFireGame : GameRecord :=
  ⟨0, "H", "A", 115, 115, 230, 220⟩

/-- Three-game log; `causalityLogB` differs from it only at index 2. -/
def causalityLogA : List GameRecord :=
  [⟨1, "X", "Y", 100, 90, 190, 200⟩, ⟨2, "Y", "X", 80, 70, 150, 210⟩,
   ⟨3, "X", "Y", 120, 110, 230, 220⟩]

/-- Same first two games as `causalityLogA`, a different third game. -/
def causalityLogB : List GameRecord :=
  [⟨1, "X", "Y", 100, 90, 190, 200⟩, ⟨2, "Y", "X", 80, 70, 150, 210⟩,
   ⟨3, "Q", "R", 1, 2, 3, 4⟩]

/-! ### Helper lemmas -/

/-- Looking a key up in an association list whose entries are `(s, f s)` for
the keys `s` of `ts` yields `f t` exactly when `t ∈ ts`. -/
lemma lookupA_map_keyfun {β : Type} (ts : List String) (f : String → β)
    (t : String) :
    lookupA (ts.map (fun s => (s, f s))) t =
      if t ∈ ts then some (f t) else none := by
  induction ts with
  | nil => rfl
  | cons s ts ih =>
    by_cases h : s = t
    · subst h
      simp [lookupA, List.find?]
    · have hbeq : (s == t) = false := beq_eq_false_iff_ne.mpr h
      simp only [List.map_cons, lookupA, List.find?, hbeq]
      simpa [lookupA, List.mem_cons, h, Ne.symm h] using ih

/-- The spec's position weight agrees with the source's. -/
lemma claimWeight_eq_gameWeight (recency : Bool) (n i : ℕ) :
    claimWeight recency n i = gameWeight recency n i := by
  simp [claimWeight, gameWeight, Nat.zero_max]

/-- Every weighted game comes from the underlying log. -/
lemma fst_mem_of_mem_weightedGames {df : List GameRecord} {recency : Bool}
    {p : GameRecord × ℚ} (hp : p ∈ weightedGames df recency) : p.1 ∈ df := by
  unfold weightedGames at hp
  obtain ⟨q, hq, rfl⟩ := List.mem_map.mp hp
  exact df.getElem?_mem (List.mem_enum_iff_getElem?.mp hq)

/-- If a team appears in no game of the log in the home role, its home-role
group in `calculate_team_totals` is empty. -/
lemma homeFilter_eq_nil (df : List GameRecord) (recency : Bool) (t : String)
    (h : ∀ g ∈ df, g.home ≠ t) :
    (weightedGames df recency).filter (fun p => p.1.home == t) = [] := by
  refine List.filter_eq_nil_iff.mpr ?_
  intro p hp
  simp only [beq_iff_eq]
  exact h p.1 (fst_mem_of_mem_weightedGames hp)

/-- If a team appears in no game of the log in the away role, its away-role
group in `calculate_team_totals` is empty. -/
lemma awayFilter_eq_nil (df : List GameRecord) (recency : Bool) (t : String)
    (h : ∀ g ∈ df, g.away ≠ t) :
    (weightedGames df recency).filter (fun p => p.1.away == t) = [] := by
  refine List.filter_eq_nil_iff.mpr ?_
  intro p hp
  simp only [beq_iff_eq]
  exact h p.1 (fst_mem_of_mem_weightedGames hp)

/-- A successful `findSome?` is witnessed by a list element. -/
lemma exists_of_findSome?_some {α β : Type} {l : List α} {f : α → Option β}
    {b : β} (h : l.findSome? f = some b) : ∃ a, a ∈ l ∧ f a = some b := by
  induction l with
  | nil => simp [List.findSome?_nil] at h
  | cons a as ih =>
    rw [List.findSome?_cons] at h
    cases hfa : f a with
    | some v =>
      rw [hfa] at h
      simp only [Option.some.injEq] at h
      exact ⟨a, List.mem_cons_self a as, by rw [hfa, h]⟩
    | none =>
      rw [hfa] at h
      obtain ⟨x, hx, hfx⟩ := ih h
      exact ⟨x, List.mem_cons_of_mem a hx, hfx⟩

/-- Every superstar-table impact lies in the 7-10 range. -/
lemma superstars_impacts_range : ∀ q ∈ SUPERSTARS, (7 : ℚ) ≤ q.2 ∧ q.2 ≤ 10 := by
  intro q hq
  fin_cases hq <;> norm_num

/-- A superstar match contributes a non-negative impact. -/
lemma matchStar_nonneg (e : String) : 0 ≤ (matchStar e).getD 0 := by
  cases h : matchStar e with
  | none => simp
  | some imp =>
    simp only [Option.getD_some]
    obtain ⟨p, hp, hfp⟩ := exists_of_findSome?_some h
    have hr := superstars_impacts_range p hp
    by_cases hc : containsStr (entryName e).toLower p.1.toLower = true
    · simp only [hc, if_true, Option.some.injEq] at hfp
      rw [← hfp]
      linarith [hr.1]
    · simp [hc] at hfp

/-- The spec-side superstar sum is non-negative. -/
lemma superstarSum_nonneg (injured : List String) : 0 ≤ superstarSum injured := by
  refine List.sum_nonneg ?_
  intro x hx
  obtain ⟨e, _, rfl⟩ := List.mem_map.mp hx
  exact matchStar_nonneg e

/-- The source's accumulation loop computes the spec-side sum and counts,
from any starting accumulator. -/
lemma injuryCounts_go (es : List String) (a : ℚ) (s r : ℕ) :
    es.foldl injuryStep (a, s, r) =
      (a + superstarSum es, s + superstarCount es, r + rolePlayerCount es) := by
  induction es generalizing a s r with
  | nil => simp [superstarSum, superstarCount, rolePlayerCount]
  | cons e es ih =>
    cases h : matchStar e with
    | some imp =>
      simp only [List.foldl_cons, injuryStep, h]
      rw [ih]
      simp only [superstarSum, superstarCount, rolePlayerCount, List.map_cons,
        List.sum_cons, List.filter_cons, h, Option.isSome_some, Option.isNone_some,
        Prod.mk.injEq]
      refine ⟨by rw [Option.getD_some]; ring, ?_, ?_⟩ <;> (simp; try omega)
    | none =>
      simp only [List.foldl_cons, injuryStep, h]
      rw [ih]
      simp only [superstarSum, superstarCount, rolePlayerCount, List.map_cons,
        List.sum_cons, List.filter_cons, h, Option.isSome_none, Option.isNone_none,
        Prod.mk.injEq]
      refine ⟨by rw [Option.getD_none]; ring, ?_, ?_⟩ <;> (simp; try omega)

/-- The source's accumulator equals the spec-side decomposition. -/
lemma injuryCounts_eq (injured : List String) :
    injuryCounts injured =
      (superstarSum injured, superstarCount injured, rolePlayerCount injured) := by
  have h := injuryCounts_go injured 0 0 0
  simp only [injuryCounts, zero_add] at h ⊢
  exact h

/-- Per-team injury impact: closed form and bounds. -/
lemma calculate_injury_impact_spec (team_name : String)
    (injuries : List (String × List String)) :
    calculate_injury_impact team_name injuries =
      min ((if 2 ≤ superstarCount (injuredOf injuries team_name) then (0.9 : ℚ) else 1) *
        (superstarSum (injuredOf injuries team_name) +
          1.5 * (rolePlayerCount (injuredOf injuries team_name) : ℚ))) 15 ∧
    0 ≤ calculate_injury_impact team_name injuries ∧
    calculate_injury_impact team_name injuries ≤ 15 := by
  have hsum := superstarSum_nonneg (injuredOf injuries team_name)
  have heq : calculate_injury_impact team_name injuries =
      min ((if 2 ≤ superstarCount (injuredOf injuries team_name) then (0.9 : ℚ) else 1) *
        (superstarSum (injuredOf injuries team_name) +
          1.5 * (rolePlayerCount (injuredOf injuries team_name) : ℚ))) 15 := by
    unfold calculate_injury_impact
    by_cases hemp : (injuredOf injuries team_name).isEmpty
    · have hnil : injuredOf injuries team_name = [] := List.isEmpty_iff.mp hemp
      rw [hnil] at hemp ⊢
      simp [hnil, superstarSum, superstarCount, rolePlayerCount]
    · simp only [hemp, Bool.false_eq_true, if_false, injuryCounts_eq]
      by_cases hc : 2 ≤ superstarCount (injuredOf injuries team_name)
      · simp only [ge_iff_le, hc, if_true]
        congr 1
        ring
      · simp only [ge_iff_le, hc, if_false]
        congr 1
        ring
  refine ⟨heq, ?_, ?_⟩
  · rw [heq]
    refine le_min ?_ (by norm_num)
    refine mul_nonneg ?_ (by positivity)
    by_cases hc : 2 ≤ superstarCount (injuredOf injuries team_name) <;>
      (simp [hc]; try norm_num)
  · rw [heq]
    exact min_le_right _ _

/-- The source's home-role group is the spec's position-indexed home list,
carried through the weight pairing. -/
lemma filter_weightedGames_home (df : List GameRecord) (recency : Bool)
    (t : String) :
    (weightedGames df recency).filter (fun p => p.1.home == t) =
      (homeGamesIdx df t).map
        (fun q => (q.2, gameWeight recency df.length q.1)) := by
  unfold weightedGames homeGamesIdx
  rw [List.filter_map]
  rfl

/-- The source's away-role group is the spec's position-indexed away list,
carried through the weight pairing. -/
lemma filter_weightedGames_away (df : List GameRecord) (recency : Bool)
    (t : String) :
    (weightedGames df recency).filter (fun p => p.1.away == t) =
      (awayGamesIdx df t).map
        (fun q => (q.2, gameWeight recency df.length q.1)) := by
  unfold weightedGames awayGamesIdx
  rw [List.filter_map]
  rfl

/-! ### Claim theorems -/

/-- C1. Walk-forward causality: the team-efficiency statistics the backtest
uses at index `i` are a pure function of the strict prefix `games[0:i]`; two
game logs that agree on that prefix yield identical training statistics at
index `i`, however their records at positions `>= i` differ. -/
theorem backtest_causality_of_training_stats (g1 g2 : List GameRecord) (i : ℕ)
    (h : List.take i g1 = List.take i g2) :
    backtestModelData g1 i = backtestModelData g2 i := by
  unfold backtestModelData backtestTrainingData
  rw [h]

/-- Witness for C1: two concrete three-game logs that agree on their first two
games but differ at index 2 produce the same training statistics at index 2. -/
theorem backtest_causality_witness :
    List.take 2 causalityLogA = List.take 2 causalityLogB ∧
    backtestModelData causalityLogA 2 = backtestModelData causalityLogB 2 :=
  ⟨by decide, backtest_causality_of_training_stats causalityLogA causalityLogB 2 (by decide)⟩

/-- C3. The edge/decision layer computes `edge = round(predicted - market, 2)`;
the outlier filter suppresses the decision (returns `false`) exactly when
`|predicted - market| > 12.0`; and both functions are deterministic in their
arguments. -/
theorem edge_and_outlier_filter_spec (predicted market : ℚ) (bet : String) :
    calculate_edge predicted market = pyRound 2 (predicted - market) ∧
    (should_filter_based_on_movement predicted market bet = false ↔
      |predicted - market| > 12.0) ∧
    calculate_edge predicted market = calculate_edge predicted market ∧
    should_filter_based_on_movement predicted market bet =
      should_filter_based_on_movement predicted market bet := by
  refine ⟨rfl, ?_, rfl, rfl⟩
  unfold should_filter_based_on_movement
  by_cases h : |predicted - market| > 12.0
  · simp [h]
  · simp [h]

/-- Witness for C3: at the spec's scenario numbers (predicted 216.5, market
229.0) the divergence exceeds 12 and the filter suppresses the bet. -/
theorem edge_and_outlier_filter_witness :
    should_filter_based_on_movement 216.5 229.0 "UNDER" = false ∧
    |(216.5 : ℚ) - 229.0| > 12.0 := by
  have habs : |(216.5 : ℚ) - 229.0| = 12.5 := by
    rw [abs_of_nonpos (by norm_num)]
    norm_num
  exact ⟨((edge_and_outlier_filter_spec 216.5 229.0 "UNDER").2.1).mpr
    (by rw [habs]; norm_num), by rw [habs]; norm_num⟩

/-- C9. `predict_total` fails with its team-not-found error exactly when at
least one of the two queried teams is absent from the stats mapping; when both
are present it returns a value (absence is never defaulted away). -/
theorem predict_total_team_not_found_iff (stats : List (String × TeamRow))
    (away_team home_team : String) (bonuses : Option (List (String × ℚ)))
    (mult calib : ℚ) (recent : Option (List RecentGame))
    (pace_map : List (String × ℚ)) (records : List (String × TeamRecordWL)) :
    (predict_total stats away_team home_team bonuses mult calib recent pace_map records =
        Except.error PredictError.teamNotFound ↔
      (lookupA stats home_team = none ∨ lookupA stats away_team = none)) ∧
    ((lookupA stats home_team).isSome → (lookupA stats away_team).isSome →
      ∃ v, predict_total stats away_team home_team bonuses mult calib recent pace_map records =
        Except.ok v) := by
  unfold predict_total
  cases hh : lookupA stats home_team <;> cases ha : lookupA stats away_team <;>
    simp [hh, ha]

/-- Witness for C9: with an empty stats mapping the call fails with the
team-not-found error. -/
theorem predict_total_team_not_found_witness :
    predict_total [] "B" "A" none 1 0 none [] [] =
      Except.error PredictError.teamNotFound :=
  (predict_total_team_not_found_iff [] "B" "A" none 1 0 none [] []).1.mpr
    (Or.inl rfl)

/-- C10. `is_back_to_back` can never return `true`: a recent game strictly
earlier than the current date has `(game_dt - current).days <= -1`, so the
source's `abs(...days) < 1` guard rejects it, while a game passing that guard
is not on the previous calendar day.  The documented back-to-back penalty of
-1.0 per team therefore never fires (the code contradicts its own docstring). -/
theorem is_back_to_back_never_true (game_date : ℚ)
    (recent_games : List RecentGame) (team_name : String) :
    is_back_to_back game_date recent_games team_name = false := by
  unfold is_back_to_back
  rw [List.any_eq_false]
  intro g _
  simp only [Bool.and_eq_true, decide_eq_true_eq, beq_iff_eq, Bool.or_eq_true,
    not_and]
  intro h1 h2
  exfalso
  have hfl : Int.floor (g.date - game_date) = 0 := by
    omega
  have hge : (0 : ℚ) ≤ g.date - game_date := by
    have h0 := (Int.floor_eq_iff.mp hfl).1
    exact_mod_cast h0
  have hmono : Int.floor game_date ≤ Int.floor g.date :=
    Int.floor_le_floor (by linarith)
  have hsub : Int.floor (game_date - 1) = Int.floor game_date - 1 := by
    norm_num [Int.floor_sub_int]
  omega

/-- C4 counterexample: a backtest step where the outlier filter fires
(|240 - 220| = 20 > 12, `should_filter_based_on_movement` returns `false`)
yet the recorded outcome is `WIN`, not `FILTERED`: src/backtest.py computes
`should_bet` and never uses it. -/
theorem backtest_result_filtered_counterexample :
    |(240 : ℚ) - 220| > 12.0 ∧
    should_filter_based_on_movement 240 220 "OVER" = false ∧
    (backtestRow filterFireGame 240 5).result = "WIN" ∧
    (backtestRow filterFireGame 240 5).result ≠ "FILTERED" := by
  have habs : |(240 : ℚ) - 220| = 20 := by
    rw [abs_of_nonneg (by norm_num)]
    norm_num
  have hres : (backtestRow filterFireGame 240 5).result = "WIN" := by
    simp [backtestRow, filterFireGame, calculate_edge, pyRound, roundHalfEven]
    norm_num [round_eq]
  refine ⟨by rw [habs]; norm_num, ?_, hres, by rw [hres]; decide⟩
  unfold should_filter_based_on_movement
  rw [habs]
  norm_num

/-- C4 (amended). Every recorded backtest outcome is one of WIN, LOSS, PUSH;
PUSH is recorded exactly when the edge is zero; otherwise WIN is recorded
exactly when the predicted direction matches the realized direction; and
FILTERED is never recorded (the filter flag is computed per step but never
affects the outcome). -/
theorem backtest_result_classification (g : GameRecord) (predicted : ℚ)
    (n : ℕ) :
    ((backtestRow g predicted n).result = "WIN" ∨
      (backtestRow g predicted n).result = "LOSS" ∨
      (backtestRow g predicted n).result = "PUSH") ∧
    ((backtestRow g predicted n).result = "PUSH" ↔
      calculate_edge predicted g.sportsbook_total = 0) ∧
    (calculate_edge predicted g.sportsbook_total ≠ 0 →
      ((backtestRow g predicted n).result = "WIN" ↔
        (predicted > g.sportsbook_total ↔
          (g.total_pts : ℚ) > g.sportsbook_total))) ∧
    (backtestRow g predicted n).result ≠ "FILTERED" := by
  by_cases he : calculate_edge predicted g.sportsbook_total = 0
  · have hres : (backtestRow g predicted n).result = "PUSH" := by
      simp [backtestRow, he]
    rw [hres]
    exact ⟨Or.inr (Or.inr rfl), by simp [he], fun h => absurd he h, by decide⟩
  · by_cases hp : predicted > g.sportsbook_total <;>
      by_cases ha : (g.total_pts : ℚ) > g.sportsbook_total <;>
      simp [backtestRow, he, hp, ha]

/-- Witness for C4 (amended): the classification at a concrete step — edge
20 ≠ 0 and both directions agree, so the result is WIN (and not FILTERED). -/
theorem backtest_result_classification_witness :
    (backtestRow filterFireGame 240 5).result = "WIN" ∧
    (backtestRow filterFireGame 240 5).result ≠ "FILTERED" := by
  have h := backtest_result_classification filterFireGame 240 5
  have he : calculate_edge 240 filterFireGame.sportsbook_total ≠ 0 := by
    norm_num [calculate_edge, filterFireGame, pyRound, roundHalfEven, round_eq]
  exact ⟨(h.2.2.1 he).mpr (by norm_num [filterFireGame]), h.2.2.2⟩

/-- C5 counterexample: on a log that is NOT sorted ascending by date the
aggregation does not fail — it returns a normal statistics mapping for both
teams. -/
theorem aggregator_unsorted_counterexample :
    sortedByDate unsortedLog = false ∧
    lookupA (calculate_team_totals unsortedLog true) "X" =
      some ⟨100, 90, 70, 80⟩ ∧
    lookupA (calculate_team_totals unsortedLog true) "Y" =
      some ⟨80, 70, 90, 100⟩ := by
  refine ⟨by decide, ?_, ?_⟩ <;>
    simp [calculate_team_totals, weightedGames, wavg, gameWeight, unsortedLog,
      lookupA, List.find?, List.enum, List.enumFrom]

/-- C5 (amended). The aggregation never fails on ordering: it performs no
date validation (and no re-sort) and, for every input — sorted or not — it
returns normally, producing one row per team occurring in the log. -/
theorem aggregator_total_on_all_inputs (df : List GameRecord)
    (recency : Bool) :
    (calculate_team_totals df recency).map (fun p => p.1) =
      (df.map (fun g => g.home) ++ df.map (fun g => g.away)).dedup := by
  unfold calculate_team_totals
  rw [List.map_map]
  exact List.map_id _

/-- C6 counterexample: in a one-game log `X` never plays away, yet the output
row for `X` carries away statistics — represented as zero (the outer join's
`fillna(0)`), not absent as the claim states. -/
theorem aggregator_zero_fill_counterexample :
    (oneGameLog.filter (fun g => g.away == "X")).length = 0 ∧
    lookupA (calculate_team_totals oneGameLog true) "X" =
      some ⟨100, 90, 0, 0⟩ := by
  constructor
  · decide
  · simp [calculate_team_totals, weightedGames, wavg, gameWeight, oneGameLog,
      lookupA, List.find?, List.enum, List.enumFrom]

/-- C6 (amended). The output mapping has an entry exactly for the teams with
at least one game in the log (a team with no games at all is absent); but a
team/role combination with zero games is NOT omitted from that entry: the
outer join fills the missing role's statistics with zeros. -/
theorem aggregator_membership_and_zero_fill (df : List GameRecord)
    (recency : Bool) (t : String) (r : TeamRow) :
    ((lookupA (calculate_team_totals df recency) t).isSome ↔
      (t ∈ df.map (fun g => g.home) ∨ t ∈ df.map (fun g => g.away))) ∧
    (lookupA (calculate_team_totals df recency) t = some r →
      ((∀ g ∈ df, g.home ≠ t) →
        r.avg_scored_home = 0 ∧ r.avg_allowed_home = 0) ∧
      ((∀ g ∈ df, g.away ≠ t) →
        r.avg_scored_away = 0 ∧ r.avg_allowed_away = 0)) := by
  constructor
  · unfold calculate_team_totals
    rw [lookupA_map_keyfun]
    simp only [List.mem_dedup, List.mem_append]
    by_cases hm : t ∈ df.map (fun g => g.home) ∨ t ∈ df.map (fun g => g.away)
    · simp [hm]
    · simp [hm]
  · intro hl
    unfold calculate_team_totals at hl
    rw [lookupA_map_keyfun] at hl
    by_cases hm : t ∈ (df.map (fun g => g.home) ++ df.map (fun g => g.away)).dedup
    · rw [if_pos hm] at hl
      have hr := Option.some.inj hl
      constructor
      · intro hhome
        have hfil := homeFilter_eq_nil df recency t hhome
        rw [← hr]
        simp [hfil]
      · intro haway
        have hfil := awayFilter_eq_nil df recency t haway
        rw [← hr]
        simp [hfil]
    · rw [if_neg hm] at hl
      exact absurd hl (by simp)

/-- Witness for C6 (amended): applying the theorem to the one-game log at team
`Y`, which never plays at home there, gives zero home statistics. -/
theorem aggregator_membership_witness :
    (⟨0, 0, 90, 100⟩ : TeamRow).avg_scored_home = 0 ∧
    (⟨0, 0, 90, 100⟩ : TeamRow).avg_allowed_home = 0 :=
  ((aggregator_membership_and_zero_fill oneGameLog true "Y" ⟨0, 0, 90, 100⟩).2
    (by simp [calculate_team_totals, weightedGames, wavg, gameWeight,
      oneGameLog, lookupA, List.find?, List.enum, List.enumFrom])).1
    (by decide)

/-- C8. The per-team injury impact equals the superstar impacts plus 1.5 per
other listed injury, damped by 0.9 when at least two superstars are out,
capped at 15; it always lies in [0, 15]; each named superstar impact lies in
7-10; and the injury adjustment is the negative of the two teams' averaged
impacts, hence never positive. -/
theorem injury_impact_cap_and_sign (injuries : List (String × List String))
    (away_team home_team team_name : String) :
    calculate_injury_impact team_name injuries =
      min ((if 2 ≤ superstarCount (injuredOf injuries team_name) then (0.9 : ℚ) else 1) *
        (superstarSum (injuredOf injuries team_name) +
          1.5 * (rolePlayerCount (injuredOf injuries team_name) : ℚ))) 15 ∧
    0 ≤ calculate_injury_impact team_name injuries ∧
    calculate_injury_impact team_name injuries ≤ 15 ∧
    adjust_prediction_for_injuries away_team home_team injuries =
      -((calculate_injury_impact home_team injuries +
        calculate_injury_impact away_team injuries) / 2) ∧
    adjust_prediction_for_injuries away_team home_team injuries ≤ 0 ∧
    (∀ q ∈ SUPERSTARS, (7 : ℚ) ≤ q.2 ∧ q.2 ≤ 10) := by
  obtain ⟨heq, hnn, hle⟩ := calculate_injury_impact_spec team_name injuries
  have hh := (calculate_injury_impact_spec home_team injuries).2.1
  have ha := (calculate_injury_impact_spec away_team injuries).2.1
  refine ⟨heq, hnn, hle, ?_, ?_, superstars_impacts_range⟩
  · unfold adjust_prediction_for_injuries
    ring
  · unfold adjust_prediction_for_injuries
    dsimp only
    linarith

/-- C2 counterexample: at the spec's own scenario stats, with a pace context
listing both teams at pace 110, `predict_total` returns 220.5 — not the
216.5 given by the claimed formula
`round(((home_scored+away_scored+home_allowed+away_allowed)/2 + bonus) * mult + calib, 1)` —
because the source adds its internal pace (and streak) adjustments after the
calibration stage and before rounding. -/
theorem predict_total_formula_counterexample :
    predict_total scenarioStats "B" "A" none 1 0 none
        [("A", 110), ("B", 110)] [] = Except.ok (220.5 : ℚ) ∧
    pyRound 1 ((((110 : ℚ) + 104 + 105 + 107) / 2 + 3.5) * 1 + 0) =
      (216.5 : ℚ) ∧
    (220.5 : ℚ) ≠ (216.5 : ℚ) := by
  refine ⟨?_, ?_, by norm_num⟩
  · simp [predict_total, scenarioStats, lookupA, List.find?, fieldOr,
      get_pace_adjusted_total, calculate_streak_adjustment, streakTeamAdj,
      pyRound, roundHalfEven]
    norm_num [round_eq]
  · norm_num [pyRound, roundHalfEven, round_eq]

/-- C2 (amended). When the external pace and record contexts list neither
team (so their adjustments degrade to zero), no recent-games table is given,
and the four statistics are nonzero (zero would be coerced to the
league-average 110), the estimator returns exactly
`round(((home_scored+away_scored+home_allowed+away_allowed)/2 + bonus) * mult + calib, 1)`:
the bonus is added before scaling, the calibration after, and rounding to one
decimal happens exactly once, as the final step. -/
theorem predict_total_neutral_context_formula
    (stats : List (String × TeamRow)) (away_team home_team : String)
    (hr ar : TeamRow) (bonuses : Option (List (String × ℚ))) (mult calib : ℚ)
    (pace_map : List (String × ℚ)) (records : List (String × TeamRecordWL))
    (hh : lookupA stats home_team = some hr)
    (ha : lookupA stats away_team = some ar)
    (h1 : hr.avg_scored_home ≠ 0) (h2 : hr.avg_allowed_home ≠ 0)
    (h3 : ar.avg_scored_away ≠ 0) (h4 : ar.avg_allowed_away ≠ 0)
    (hp1 : lookupA pace_map home_team = none)
    (hp2 : lookupA pace_map away_team = none)
    (hw1 : lookupA records home_team = none)
    (hw2 : lookupA records away_team = none) :
    predict_total stats away_team home_team bonuses mult calib none
        pace_map records =
      Except.ok (pyRound 1
        (((hr.avg_scored_home + ar.avg_scored_away + hr.avg_allowed_home +
            ar.avg_allowed_away) / 2 + effectiveBonus bonuses home_team) *
          mult + calib)) := by
  unfold predict_total
  rw [hh, ha]
  unfold fieldOr get_pace_adjusted_total calculate_streak_adjustment
    streakTeamAdj effectiveBonus
  rw [hp1, hp2, hw1, hw2]
  simp only [h1, h2, h3, h4, if_false, ite_false, Option.getD_none,
    Except.ok.injEq]
  norm_num

/-- Witness for C2 (amended): at the spec's scenario (bonus default 3.5,
multiplier 1, calibration 0, empty external contexts) the formula applies,
yielding 216.5. -/
theorem predict_total_neutral_context_witness :
    predict_total scenarioStats "B" "A" none 1 0 none [] [] =
      Except.ok (pyRound 1 ((((110 : ℚ) + 104 + 105 + 107) / 2 +
        effectiveBonus none "A") * 1 + 0)) :=
  predict_total_neutral_context_formula scenarioStats "B" "A"
    ⟨110, 105, 100, 112⟩ ⟨108, 110, 104, 107⟩ none 1 0 [] []
    rfl rfl (by decide) (by decide) (by decide) (by decide) rfl rfl rfl rfl

/-- C7. Every per-team per-role average produced by the aggregator equals the
weighted mean in which the game at input position `i` of an `n`-game log
carries weight 3.0 when recency weighting is on, `n > 10` and
`i >= max(0, n - n//3)`, and weight 1.0 otherwise (so with recency weighting
off, or `n <= 10`, all games weigh equally). -/
theorem recency_weighted_averages (df : List GameRecord) (recency : Bool)
    (t : String) (r : TeamRow)
    (hl : lookupA (calculate_team_totals df recency) t = some r) :
    (homeGamesIdx df t ≠ [] →
      r.avg_scored_home =
        weightedMeanBy ((homeGamesIdx df t).map (fun p => (p.1, (p.2.home_pts : ℚ))))
          (claimWeight recency df.length) ∧
      r.avg_allowed_home =
        weightedMeanBy ((homeGamesIdx df t).map (fun p => (p.1, (p.2.away_pts : ℚ))))
          (claimWeight recency df.length)) ∧
    (awayGamesIdx df t ≠ [] →
      r.avg_scored_away =
        weightedMeanBy ((awayGamesIdx df t).map (fun p => (p.1, (p.2.away_pts : ℚ))))
          (claimWeight recency df.length) ∧
      r.avg_allowed_away =
        weightedMeanBy ((awayGamesIdx df t).map (fun p => (p.1, (p.2.home_pts : ℚ))))
          (claimWeight recency df.length)) := by
  unfold calculate_team_totals at hl
  rw [lookupA_map_keyfun] at hl
  by_cases hm : t ∈ (df.map (fun g => g.home) ++ df.map (fun g => g.away)).dedup
  · rw [if_pos hm] at hl
    have hr := Option.some.inj hl
    rw [← hr]
    have hfh := filter_weightedGames_home df recency t
    have hfa := filter_weightedGames_away df recency t
    constructor
    · intro hne
      have hemp : ((weightedGames df recency).filter
          (fun p => p.1.home == t)).isEmpty = false := by
        rw [hfh]
        simp [List.isEmpty_iff, List.map_eq_nil_iff, hne]
      constructor <;>
        · simp only [hemp, Bool.false_eq_true, if_false, hfh]
          simp [wavg, weightedMeanBy, List.map_map, claimWeight_eq_gameWeight,
            hne]
          try rfl
    · intro hne
      have hemp : ((weightedGames df recency).filter
          (fun p => p.1.away == t)).isEmpty = false := by
        rw [hfa]
        simp [List.isEmpty_iff, List.map_eq_nil_iff, hne]
      constructor <;>
        · simp only [hemp, Bool.false_eq_true, if_false, hfa]
          simp [wavg, weightedMeanBy, List.map_map, claimWeight_eq_gameWeight,
            hne]
          try rfl
  · rw [if_neg hm] at hl
    exact absurd hl (by simp)

/-- Witness for C7: on the sorted two-game log, team `X`'s home scoring
average (100) equals the claim's weighted mean. -/
theorem recency_weighted_averages_witness :
    (⟨100, 90, 70, 80⟩ : TeamRow).avg_scored_home =
      weightedMeanBy ((homeGamesIdx twoGameLog "X").map
        (fun p => (p.1, (p.2.home_pts : ℚ)))) (claimWeight true twoGameLog.length) ∧
    (⟨100, 90, 70, 80⟩ : TeamRow).avg_allowed_home =
      weightedMeanBy ((homeGamesIdx twoGameLog "X").map
        (fun p => (p.1, (p.2.away_pts : ℚ)))) (claimWeight true twoGameLog.length) :=
  (recency_weighted_averages twoGameLog true "X" ⟨100, 90, 70, 80⟩
    (by simp [calculate_team_totals, weightedGames, wavg, gameWeight,
      twoGameLog, lookupA, List.find?, List.enum, List.enumFrom])).1
    (by decide)

/-- Witness for C8: for a single role-player injury the impact is 1.5, inside
[0, 15], and the adjustment at a concrete matchup is non-positive. -/
theorem injury_impact_cap_witness :
    0 ≤ calculate_injury_impact "T" [("T", ["Some Guy (out)"])] ∧
    calculate_injury_impact "T" [("T", ["Some Guy (out)"])] ≤ 15 ∧
    adjust_prediction_for_injuries "T" "U" [("T", ["Some Guy (out)"])] ≤ 0 :=
  ⟨(injury_impact_cap_and_sign [("T", ["Some Guy (out)"])] "T" "U" "T").2.1,
   (injury_impact_cap_and_sign [("T", ["Some Guy (out)"])] "T" "U" "T").2.2.1,
   (injury_impact_cap_and_sign [("T", ["Some Guy (out)"])] "T" "U" "T").2.2.2.2.1⟩

end NbaTotals
